import Mathlib

/-!
# Verification of the boa CLI REPL controller (src/boa_cli/src/main.rs)

A shallow embedding of the boa command-line shell: the dump pipeline
(`lex_source`, `parse_tokens`, `dump`), the REPL loop body of `main`
(modelled as a step function `replStep` and an iterated loop `runLoop`),
the file-mode dispatch (`fileStep`), session-end history flushing
(`sessionEnd`), the bracket validator (modelled from the spec, since the
`MatchingBracketValidator` implementation lives in the rustyline
dependency), and the line highlighter (`highlightScan`).

External collaborators (the boa engine's lexer, parser, interpreter and
the serde serializers) are out of scope per the spec; they are modelled
as an abstract `Externals` record of functions, so theorems quantify over
every possible collaborator behaviour.  Terminal colour codes are a
presentation detail (spec section 1); styled output is modelled as a list
of (category, text) segments.
-/

/-- The dump formats of the `DumpFormat` arg enum: `Debug`, `Json`, `JsonPretty`. -/
inductive DumpFormat : Type
  | debug
  | json
  | jsonPretty
deriving DecidableEq, Repr

/-- The parsed command-line options (struct `Opt`).  `dump_tokens` and
`dump_ast` are `Option<Option<DumpFormat>>` exactly as in the source. -/
structure Opt : Type where
  files : List String
  dump_tokens : Option (Option DumpFormat)
  dump_ast : Option (Option DumpFormat)
  vi_mode : Bool
deriving DecidableEq, Repr

/-- `Opt::has_dump_flag`: whether a dump flag has been used. -/
def Opt.hasDumpFlag (args : Opt) : Bool :=
  args.dump_tokens.isSome || args.dump_ast.isSome

/-- The external collaborators consumed by the CLI: the boa engine's lexer,
parser and interpreter (`forward_val`), and the `Debug`/`serde_json`
serializers.  `T` is the token type, `A` the AST type, `G` the engine
(interpreter) state. -/
structure Externals (T A G : Type) : Type where
  lex : String → Except String (List T)
  parse : List T → Except String A
  dbgTokens : List T → String
  jsonTokens : List T → String
  jsonPrettyTokens : List T → String
  dbgAst : A → String
  jsonAst : A → String
  jsonPrettyAst : A → String
  forward_val : G → String → G × Except String String

/-- `lex_source`: lexes the source, mapping a lexer error `e` to
`format!("SyntaxError: {}", e)`. -/
def lex_source {T A G : Type} (E : Externals T A G) (src : String) :
    Except String (List T) :=
  match E.lex src with
  | Except.error e => Except.error ("SyntaxError: " ++ e)
  | Except.ok tokens => Except.ok tokens

/-- `parse_tokens`: parses the token stream, mapping a parser error `e` to
`format!("ParsingError: {}", e)`. -/
def parse_tokens {T A G : Type} (E : Externals T A G) (tokens : List T) :
    Except String A :=
  match E.parse tokens with
  | Except.error e => Except.error ("ParsingError: " ++ e)
  | Except.ok ast => Except.ok ast

/-- The inner `match arg` of `dump` on the token branch: an explicit format
selects the corresponding serializer, an absent format defaults to the
`Debug` dump. -/
def tokenOutput {T A G : Type} (E : Externals T A G)
    (arg : Option DumpFormat) (tokens : List T) : String :=
  match arg with
  | some DumpFormat.debug => E.dbgTokens tokens
  | some DumpFormat.json => E.jsonTokens tokens
  | some DumpFormat.jsonPretty => E.jsonPrettyTokens tokens
  | none => E.dbgTokens tokens

/-- The inner `match arg` of `dump` on the ast branch. -/
def astOutput {T A G : Type} (E : Externals T A G)
    (arg : Option DumpFormat) (ast : A) : String :=
  match arg with
  | some DumpFormat.debug => E.dbgAst ast
  | some DumpFormat.json => E.jsonAst ast
  | some DumpFormat.jsonPretty => E.jsonPrettyAst ast
  | none => E.dbgAst ast

/-- `dump`: lexes the source, then either serializes the token stream
(`--dump-tokens`), or parses and serializes the ast (`--dump-ast`), or
does nothing.  Returns the lines printed to stdout, or the error string. -/
def dump {T A G : Type} (E : Externals T A G) (src : String) (args : Opt) :
    Except String (List String) :=
  match lex_source E src with
  | Except.error e => Except.error e
  | Except.ok tokens =>
    match args.dump_tokens with
    | some arg => Except.ok [tokenOutput E arg tokens]
    | none =>
      match args.dump_ast with
      | some arg =>
        match parse_tokens E tokens with
        | Except.error e => Except.error e
        | Except.ok ast => Except.ok [astOutput E arg ast]
      | none => Except.ok []

/-- Text emitted on the two output channels during one step of the CLI. -/
structure Effects : Type where
  stdout : List String
  stderr : List String
deriving DecidableEq, Repr

/-- No output. -/
def Effects.nil : Effects := { stdout := [], stderr := [] }

/-- Concatenation of effects in chronological order. -/
def Effects.append (a b : Effects) : Effects :=
  { stdout := a.stdout ++ b.stdout, stderr := a.stderr ++ b.stderr }

/-- The REPL session state: the in-memory history store and the engine. -/
structure ReplState (G : Type) : Type where
  history : List String
  engine : G

/-- The result of `editor.readline`: a line, Ctrl-C, Ctrl-D, or another
readline error. -/
inductive ReadEvent : Type
  | ok (line : String)
  | interrupted
  | eof
  | readErr (msg : String)

/-- Whether an iteration of the REPL loop `break`s or continues. -/
inductive StepOut : Type
  | broke
  | continued
deriving DecidableEq, Repr

/-- `str::trim_end`: the line with trailing whitespace removed. -/
def trimEnd (s : String) : String :=
  String.mk ((s.data.reverse.dropWhile Char.isWhitespace).reverse)

/-- One iteration of the interactive loop body of `main` (lines 229-254):
`.exit` breaks immediately; interrupt and end-of-file break; any other line
is appended to history and then dispatched to `dump` (when a dump flag is
set) or to `forward_val` on the trimmed line, printing the result to stdout
or the error to stderr with the `Uncaught` tag (colour styling elided). -/
def replStep {T A G : Type} (E : Externals T A G) (args : Opt)
    (st : ReplState G) (ev : ReadEvent) : ReplState G × Effects × StepOut :=
  match ev with
  | ReadEvent.ok line =>
    if line = ".exit" then (st, Effects.nil, StepOut.broke)
    else
      let hist2 := st.history ++ [line]
      if args.hasDumpFlag then
        match dump E line args with
        | Except.ok outs =>
          ({ history := hist2, engine := st.engine },
           { stdout := outs, stderr := [] }, StepOut.continued)
        | Except.error e =>
          ({ history := hist2, engine := st.engine },
           { stdout := [], stderr := [e] }, StepOut.continued)
      else
        match E.forward_val st.engine (trimEnd line) with
        | (eng2, Except.ok v) =>
          ({ history := hist2, engine := eng2 },
           { stdout := [v], stderr := [] }, StepOut.continued)
        | (eng2, Except.error v) =>
          ({ history := hist2, engine := eng2 },
           { stdout := [], stderr := ["Uncaught: " ++ v] }, StepOut.continued)
  | ReadEvent.interrupted => (st, Effects.nil, StepOut.broke)
  | ReadEvent.eof => (st, Effects.nil, StepOut.broke)
  | ReadEvent.readErr m =>
    (st, { stdout := [], stderr := ["Unknown error: " ++ m] }, StepOut.broke)

/-- The interactive loop iterated over a finite stream of read events,
stopping when an iteration breaks. -/
def runLoop {T A G : Type} (E : Externals T A G) (args : Opt) :
    ReplState G → List ReadEvent → ReplState G × Effects
  | st, [] => (st, Effects.nil)
  | st, ev :: evs =>
    match replStep E args st ev with
    | (st2, eff, StepOut.broke) => (st2, eff)
    | (st2, eff, StepOut.continued) =>
      let r := runLoop E args st2 evs
      (r.1, Effects.append eff r.2)

/-- The per-file dispatch of `main` (lines 195-208): dump (printing the
error to stderr on failure) or `forward_val` on the whole buffer, printing
the result to stdout or the error to stderr verbatim. -/
def fileStep {T A G : Type} (E : Externals T A G) (args : Opt) (eng : G)
    (buffer : String) : G × Effects :=
  if args.hasDumpFlag then
    match dump E buffer args with
    | Except.ok outs => (eng, { stdout := outs, stderr := [] })
    | Except.error e => (eng, { stdout := [], stderr := [e] })
  else
    match E.forward_val eng buffer with
    | (eng2, Except.ok v) => (eng2, { stdout := [v], stderr := [] })
    | (eng2, Except.error v) => (eng2, { stdout := [], stderr := [v] })

/-- Whether the process ends normally or aborts (panics) at session end. -/
inductive SessionEndOutcome : Type
  | finished
  | aborted
deriving DecidableEq, Repr

/-- Session end (line 256): `editor.save_history(CLI_HISTORY).unwrap()`.
`Result::unwrap` panics on `Err`, aborting the process; the flush result is
never returned to the caller. -/
def sessionEnd (saveResult : Except String Unit) : SessionEndOutcome :=
  match saveResult with
  | Except.ok _ => SessionEndOutcome.finished
  | Except.error _ => SessionEndOutcome.aborted

/-! ## Bracket validator

`RLHelper::validate` delegates to rustyline's `MatchingBracketValidator`,
whose implementation lives in the rustyline dependency, not in this
repository.  It is modelled from the spec below. -/

/-- The three validation verdicts. -/
inductive ValidationVerdict : Type
  | valid
  | incomplete
  | invalid
deriving DecidableEq, Repr

/-- An opening grouping symbol: parenthesis, bracket or brace. -/
def isOpenBracket (c : Char) : Bool :=
  c = '(' || c = '[' || c = '\x7b'

/-- A closing grouping symbol. -/
def isCloseBracket (c : Char) : Bool :=
  c = ')' || c = ']' || c = '\x7d'

/-- Whether `c` closes the opening symbol `o`. -/
def matchingPair (o c : Char) : Bool :=
  (o = '(' && c = ')') || (o = '[' && c = ']') || (o = '\x7b' && c = '\x7d')

/-- Modelled from the spec: the bracket validator of section 4.2 (the
`MatchingBracketValidator` of the rustyline dependency is not part of this
repository's source).  Scans the buffer left to right with a stack of open
grouping symbols: an opening symbol is pushed; a closing symbol pops a
matching top or answers `invalid` immediately; end of input answers
`incomplete` when the stack is non-empty and `valid` otherwise. -/
def validateBrackets : List Char → List Char → ValidationVerdict
  | [], [] => ValidationVerdict.valid
  | [], _ :: _ => ValidationVerdict.incomplete
  | c :: rest, stack =>
    if isOpenBracket c then validateBrackets rest (c :: stack)
    else if isCloseBracket c then
      match stack with
      | [] => ValidationVerdict.invalid
      | o :: stack2 =>
        if matchingPair o c then validateBrackets rest stack2
        else ValidationVerdict.invalid
    else validateBrackets rest stack

/-- Declarative characterisation of buffers whose grouping symbols are
balanced in valid nesting order; non-bracket characters are transparent. -/
inductive WellBracketed : List Char → Prop
  | nil : WellBracketed []
  | other {c : Char} {cs : List Char} :
      isOpenBracket c = false → isCloseBracket c = false →
      WellBracketed cs → WellBracketed (c :: cs)
  | wrap {o c : Char} {inner rest : List Char} :
      isOpenBracket o = true → matchingPair o c = true →
      WellBracketed inner → WellBracketed rest →
      WellBracketed (o :: (inner ++ c :: rest))

/-! ## Line highlighter

`LineHighlighter::highlight` replaces every match of a two-alternative
regex (an identifier alternative over the class dollar, A-z, underscore,
and an operator alternative over the single characters
+ - / * % ~ ^ ! & | = < > , . ; :) with a styled copy of the matched
text.  Styling is modelled as a category tag on each span; span texts
concatenate to the displayed line. -/

/-- The regex character class `[$A-z_]` of the identifier alternative.
`A-z` is a range over code points, so it also contains the ASCII
characters between `Z` and `a`. -/
def identStartChar (c : Char) : Bool :=
  c = '$' || ('A' ≤ c && c ≤ 'z') || c = '_'

/-- The regex character class `[$A-z_0-9]`. -/
def identContChar (c : Char) : Bool :=
  identStartChar c || ('0' ≤ c && c ≤ '9')

/-- The operator character class of the regex: the single characters
+ - / * % ~ ^ ! & | = < > , . ; : (each escaped as needed). -/
def opChar (c : Char) : Bool :=
  c = '+' || c = '-' || c = '/' || c = '*' || c = '%' || c = '~' ||
  c = '^' || c = '!' || c = '&' || c = '|' || c = '=' || c = '<' ||
  c = '>' || c = ',' || c = '.' || c = ';' || c = ':'

/-- The `KEYWORDS` set built by the `lazy_static` block. -/
def KEYWORDS : List String :=
  ["break", "case", "catch", "class", "const", "continue", "default",
   "delete", "do", "else", "export", "extends", "finally", "for",
   "function", "if", "import", "instanceof", "new", "return", "super",
   "switch", "this", "throw", "try", "typeof", "var", "void", "while",
   "with", "yield", "await", "enum", "let"]

/-- The visual treatment given to a span by the replacement closure:
purple for the four literal constants, gray for `undefined`, yellow bold
for keywords, plain for other identifier matches, green for operator
matches, and raw (untouched) for unmatched text. -/
inductive Cat : Type
  | litConst
  | undef
  | keyword
  | plainIdent
  | op
  | raw
deriving DecidableEq, Repr

/-- One span of the highlighted line: a category and the underlying text. -/
structure Seg : Type where
  cat : Cat
  text : List Char
deriving DecidableEq, Repr

/-- The `match cap.as_str()` of the identifier branch of the replacement
closure, in source order. -/
def classifyIdent (s : String) : Cat :=
  if s = "true" || s = "false" || s = "null" || s = "Infinity" then
    Cat.litConst
  else if s = "undefined" then Cat.undef
  else if KEYWORDS.contains s then Cat.keyword
  else Cat.plainIdent

/-- `Regex::replace_all` over the highlight regex: at each position, the
identifier alternative greedily takes a non-empty run of `[$A-z_]` followed
by a run of `[$A-z_0-9]`; otherwise a single operator character matches;
otherwise the character is left as unmatched raw text.  The recursion is
bounded by a fuel argument; each step consumes at least one character, so
fuel equal to the buffer length (as supplied by `highlightScan`) never
runs out. -/
def highlightScanF : Nat → List Char → List Seg
  | 0, _ => []
  | _ + 1, [] => []
  | fuel + 1, c :: cs =>
    if identStartChar c then
      let a := cs.takeWhile identStartChar
      let r1 := cs.dropWhile identStartChar
      let b := r1.takeWhile identContChar
      let r2 := r1.dropWhile identContChar
      { cat := classifyIdent (String.mk (c :: (a ++ b))),
        text := c :: (a ++ b) } :: highlightScanF fuel r2
    else if opChar c then
      { cat := Cat.op, text := [c] } :: highlightScanF fuel cs
    else
      { cat := Cat.raw, text := [c] } :: highlightScanF fuel cs

/-- The scan of a whole buffer, with enough fuel for its length. -/
def highlightScan (cs : List Char) : List Seg :=
  highlightScanF cs.length cs

/-- `LineHighlighter::highlight` on a line. -/
def highlightLine (line : String) : List Seg :=
  highlightScan line.data

/-- Stripping the style markers: the concatenation of the span texts. -/
def stripSegs : List Seg → List Char
  | [] => []
  | s :: rest => s.text ++ stripSegs rest

/-- Stripping the style markers, as a string. -/
def stripString (segs : List Seg) : String :=
  String.mk (stripSegs segs)

/-! ## Concrete collaborator instances for closed evaluations -/

/-- Options with no flags set (plain evaluation mode). -/
def opt0 : Opt :=
  { files := [], dump_tokens := none, dump_ast := none, vi_mode := false }

/-- Options requesting a token dump with the default format. -/
def optTok : Opt :=
  { files := [], dump_tokens := some none, dump_ast := none, vi_mode := false }

/-- Options requesting an ast dump in the compact json format. -/
def optAst : Opt :=
  { files := [], dump_tokens := none, dump_ast := some (some DumpFormat.json),
    vi_mode := false }

/-- Collaborators for which every stage succeeds. -/
def extOk : Externals Unit Unit Unit :=
  { lex := fun _ => Except.ok [()]
    parse := fun _ => Except.ok ()
    dbgTokens := fun _ => "tokens-debug"
    jsonTokens := fun _ => "tokens-json"
    jsonPrettyTokens := fun _ => "tokens-json-pretty"
    dbgAst := fun _ => "ast-debug"
    jsonAst := fun _ => "ast-json"
    jsonPrettyAst := fun _ => "ast-json-pretty"
    forward_val := fun g _ => (g, Except.ok "1") }

/-- Collaborators whose evaluator fails with a type error. -/
def extEvalErr : Externals Unit Unit Unit :=
  { extOk with forward_val := fun g _ => (g, Except.error "TypeError: boom") }

/-- Collaborators whose lexer fails. -/
def extLexErr : Externals Unit Unit Unit :=
  { extOk with lex := fun _ => Except.error "bad token" }

/-- Collaborators whose parser fails. -/
def extParseErr : Externals Unit Unit Unit :=
  { extOk with parse := fun _ => Except.error "bad ast" }

/-- An initial interactive session state with empty history. -/
def st0 : ReplState Unit := { history := [], engine := () }

/-- Whether an error line carries the `Uncaught` marker of the interactive
evaluation-error output. -/
def isTagged (s : String) : Bool :=
  "Uncaught".data.isPrefixOf s.data

/-! ## Helper lemmas about the REPL step -/

/-- A submitted non-exit line always continues the loop with the line
appended to history, whatever the dispatch outcome. -/
theorem replStep_ok_shape {T A G : Type} (E : Externals T A G) (args : Opt)
    (st : ReplState G) (line : String) (h : ¬ line = ".exit") :
    ∃ eff eng2,
      replStep E args st (ReadEvent.ok line) =
        ({ history := st.history ++ [line], engine := eng2 }, eff,
         StepOut.continued) := by
  simp only [replStep]
  rw [if_neg h]
  by_cases hd : args.hasDumpFlag = true
  · rw [if_pos hd]
    cases hdump : dump E line args with
    | ok outs => exact ⟨_, _, rfl⟩
    | error e => exact ⟨_, _, rfl⟩
  · rw [if_neg hd]
    rcases hfv : E.forward_val st.engine (trimEnd line) with ⟨eng2, r⟩
    cases r with
    | ok v => exact ⟨_, _, rfl⟩
    | error v => exact ⟨_, _, rfl⟩

/-- The literal `.exit` line breaks the loop at once, with no output and no
state change. -/
theorem replStep_exit {T A G : Type} (E : Externals T A G) (args : Opt)
    (st : ReplState G) :
    replStep E args st (ReadEvent.ok ".exit") =
      (st, Effects.nil, StepOut.broke) := by
  simp [replStep]

/-- History never shrinks across any read event. -/
theorem replStep_history_mono {T A G : Type} (E : Externals T A G)
    (args : Opt) (st : ReplState G) (ev : ReadEvent) :
    ∃ tail, ((replStep E args st ev).1).history = st.history ++ tail := by
  cases ev with
  | ok line =>
    by_cases h : line = ".exit"
    · subst h
      rw [replStep_exit]
      exact ⟨[], by simp⟩
    · obtain ⟨eff, eng2, hstep⟩ := replStep_ok_shape E args st line h
      rw [hstep]
      exact ⟨[line], rfl⟩
  | interrupted => exact ⟨[], by simp [replStep]⟩
  | eof => exact ⟨[], by simp [replStep]⟩
  | readErr m => exact ⟨[], by simp [replStep]⟩

/-- Running the loop on non-exit submissions followed by `.exit` records
exactly those submissions, in order. -/
theorem runLoop_history {T A G : Type} (E : Externals T A G) (args : Opt)
    (st : ReplState G) (lines : List String)
    (h : ∀ l ∈ lines, ¬ l = ".exit") :
    ((runLoop E args st
        (lines.map ReadEvent.ok ++ [ReadEvent.ok ".exit"])).1).history =
      st.history ++ lines := by
  induction lines generalizing st with
  | nil =>
    simp only [List.map_nil, List.nil_append]
    rw [runLoop, replStep_exit]
    simp
  | cons l ls ih =>
    obtain ⟨eff, eng2, hstep⟩ :=
      replStep_ok_shape E args st l (h l (List.mem_cons_self l ls))
    simp only [List.map_cons, List.cons_append]
    rw [runLoop, hstep]
    have := ih { history := st.history ++ [l], engine := eng2 }
      (fun x hx => h x (List.mem_cons_of_mem l hx))
    simpa [List.append_assoc] using this

/-! ## Helper lemmas about the dump pipeline -/

/-- A lexer failure makes `dump` fail with the `SyntaxError` message. -/
theorem dump_lex_err {T A G : Type} (E : Externals T A G) (args : Opt)
    (src : String) (e : String) (h : E.lex src = Except.error e) :
    dump E src args = Except.error ("SyntaxError: " ++ e) := by
  simp [dump, lex_source, h]

/-- With a token dump requested, `dump` serializes the lexed tokens. -/
theorem dump_tokens_out {T A G : Type} (E : Externals T A G) (args : Opt)
    (src : String) (f : Option DumpFormat) (ts : List T)
    (hf : args.dump_tokens = some f) (h : E.lex src = Except.ok ts) :
    dump E src args = Except.ok [tokenOutput E f ts] := by
  simp [dump, lex_source, h, hf]

/-- With a token dump requested, `dump` does not depend on the parser. -/
theorem dump_tokens_parse_indep {T A G : Type} (E : Externals T A G)
    (args : Opt) (src : String) (f : Option DumpFormat)
    (p : List T → Except String A) (hf : args.dump_tokens = some f) :
    dump { E with parse := p } src args = dump E src args := by
  cases h : E.lex src with
  | ok ts =>
    rw [dump_tokens_out { E with parse := p } args src f ts hf h,
      dump_tokens_out E args src f ts hf h]
    cases f with
    | none => rfl
    | some fmt => cases fmt <;> rfl
  | error e =>
    rw [dump_lex_err { E with parse := p } args src e h,
      dump_lex_err E args src e h]

/-- With an ast dump requested and lexing done, a parser failure makes
`dump` fail with the `ParsingError` message. -/
theorem dump_parse_err {T A G : Type} (E : Externals T A G) (args : Opt)
    (src : String) (f : Option DumpFormat) (ts : List T) (e : String)
    (ht : args.dump_tokens = none) (hf : args.dump_ast = some f)
    (h : E.lex src = Except.ok ts) (hp : E.parse ts = Except.error e) :
    dump E src args = Except.error ("ParsingError: " ++ e) := by
  simp [dump, lex_source, parse_tokens, h, ht, hf, hp]

/-- With an ast dump requested, `dump` serializes the parsed tree. -/
theorem dump_ast_out {T A G : Type} (E : Externals T A G) (args : Opt)
    (src : String) (f : Option DumpFormat) (ts : List T) (ast : A)
    (ht : args.dump_tokens = none) (hf : args.dump_ast = some f)
    (h : E.lex src = Except.ok ts) (hp : E.parse ts = Except.ok ast) :
    dump E src args = Except.ok [astOutput E f ast] := by
  simp [dump, lex_source, parse_tokens, h, ht, hf, hp]

/-- With no dump flag at all, `dump` lexes and prints nothing. -/
theorem dump_no_flag {T A G : Type} (E : Externals T A G) (args : Opt)
    (src : String) (ts : List T) (ht : args.dump_tokens = none)
    (hf : args.dump_ast = none) (h : E.lex src = Except.ok ts) :
    dump E src args = Except.ok [] := by
  simp [dump, lex_source, h, ht, hf]

/-- A non-exit line in dump mode whose dump fails: the error goes to
stderr, nothing to stdout, the line is in history, the engine unchanged,
and the loop continues. -/
theorem replStep_dump_err {T A G : Type} (E : Externals T A G) (args : Opt)
    (st : ReplState G) (line e : String) (h : ¬ line = ".exit")
    (hd : args.hasDumpFlag = true) (herr : dump E line args = Except.error e) :
    replStep E args st (ReadEvent.ok line) =
      ({ history := st.history ++ [line], engine := st.engine },
       { stdout := [], stderr := [e] }, StepOut.continued) := by
  simp only [replStep]
  rw [if_neg h, if_pos hd, herr]

/-- A non-exit line in dump mode whose dump succeeds: the dumped lines go
to stdout, nothing to stderr, the engine unchanged. -/
theorem replStep_dump_ok {T A G : Type} (E : Externals T A G) (args : Opt)
    (st : ReplState G) (line : String) (outs : List String)
    (h : ¬ line = ".exit") (hd : args.hasDumpFlag = true)
    (hok : dump E line args = Except.ok outs) :
    replStep E args st (ReadEvent.ok line) =
      ({ history := st.history ++ [line], engine := st.engine },
       { stdout := outs, stderr := [] }, StepOut.continued) := by
  simp only [replStep]
  rw [if_neg h, if_pos hd, hok]

/-- A non-exit line in evaluation mode whose evaluation succeeds. -/
theorem replStep_eval_ok {T A G : Type} (E : Externals T A G) (args : Opt)
    (st : ReplState G) (line v : String) (eng2 : G) (h : ¬ line = ".exit")
    (hd : args.hasDumpFlag = false)
    (hfv : E.forward_val st.engine (trimEnd line) = (eng2, Except.ok v)) :
    replStep E args st (ReadEvent.ok line) =
      ({ history := st.history ++ [line], engine := eng2 },
       { stdout := [v], stderr := [] }, StepOut.continued) := by
  simp only [replStep]
  rw [if_neg h, if_neg (by simp [hd]), hfv]

/-- A non-exit line in evaluation mode whose evaluation fails: the error
goes to stderr prefixed with the `Uncaught` tag. -/
theorem replStep_eval_err {T A G : Type} (E : Externals T A G) (args : Opt)
    (st : ReplState G) (line v : String) (eng2 : G) (h : ¬ line = ".exit")
    (hd : args.hasDumpFlag = false)
    (hfv : E.forward_val st.engine (trimEnd line) = (eng2, Except.error v)) :
    replStep E args st (ReadEvent.ok line) =
      ({ history := st.history ++ [line], engine := eng2 },
       { stdout := [], stderr := ["Uncaught: " ++ v] }, StepOut.continued) := by
  simp only [replStep]
  rw [if_neg h, if_neg (by simp [hd]), hfv]

/-- File-mode evaluation success: the value goes to stdout verbatim. -/
theorem fileStep_eval_ok {T A G : Type} (E : Externals T A G) (args : Opt)
    (eng eng2 : G) (buffer v : String) (hd : args.hasDumpFlag = false)
    (hfv : E.forward_val eng buffer = (eng2, Except.ok v)) :
    fileStep E args eng buffer = (eng2, { stdout := [v], stderr := [] }) := by
  simp only [fileStep]
  rw [if_neg (by simp [hd]), hfv]

/-- File-mode evaluation failure: the bare error string goes to stderr,
with no tag. -/
theorem fileStep_eval_err {T A G : Type} (E : Externals T A G) (args : Opt)
    (eng eng2 : G) (buffer v : String) (hd : args.hasDumpFlag = false)
    (hfv : E.forward_val eng buffer = (eng2, Except.error v)) :
    fileStep E args eng buffer = (eng2, { stdout := [], stderr := [v] }) := by
  simp only [fileStep]
  rw [if_neg (by simp [hd]), hfv]

/-! ## Claim C1: history flush failure at session end -/

/-- C1 counterexample: contrary to the claim, a flush failure at session
end is not surfaced as a recoverable error — `save_history(..).unwrap()`
panics, aborting the process, already for a concrete I/O error. -/
theorem history_flush_abort_cex :
    sessionEnd (Except.error "No space left on device") =
      SessionEndOutcome.aborted := rfl

/-- C1 amended: if flushing the history store fails at session end, the
program aborts via the panic of `unwrap` on the `Err` value; only a
successful flush ends the session normally.  The failure is never
surfaced to the caller as a recoverable error. -/
theorem history_flush_unwrap_aborts :
    (∀ e, sessionEnd (Except.error e) = SessionEndOutcome.aborted) ∧
    sessionEnd (Except.ok ()) = SessionEndOutcome.finished :=
  ⟨fun _ => rfl, rfl⟩

/-! ## Claim C2: the `.exit` line -/

/-- C2: on the literal input line `.exit`, the REPL loop breaks at once
with no output and no state change; the result is a constant independent
of the dump pipeline and engine collaborators `E`, so neither `dump` nor
`forward_val` is invoked for that input. -/
theorem exit_skips_dump_and_eval :
    ∀ (T A G : Type) (E : Externals T A G) (args : Opt) (st : ReplState G),
      replStep E args st (ReadEvent.ok ".exit") =
        (st, Effects.nil, StepOut.broke) :=
  fun _ _ _ E args st => replStep_exit E args st

/-! ## Claim C3: submitted lines are recorded before dispatch -/

/-- C3: every interactive line other than the terminating inputs is
appended to the history store as part of its submission step, whatever
the dispatch outcome (the appended history is the same for every dump or
evaluation result); and across every read event, history only grows. -/
theorem submitted_lines_recorded :
    (∀ (T A G : Type) (E : Externals T A G) (args : Opt) (st : ReplState G)
        (line : String), ¬ line = ".exit" →
        ((replStep E args st (ReadEvent.ok line)).1).history =
          st.history ++ [line]) ∧
    (∀ (T A G : Type) (E : Externals T A G) (args : Opt) (st : ReplState G)
        (ev : ReadEvent),
        ∃ tail, ((replStep E args st ev).1).history = st.history ++ tail) := by
  constructor
  · intro T A G E args st line h
    obtain ⟨eff, eng2, hstep⟩ := replStep_ok_shape E args st line h
    rw [hstep]
  · intro T A G E args st ev
    exact replStep_history_mono E args st ev

/-- C3 witness: the line `1 + 1` is recorded even though its evaluation
fails with a type error. -/
theorem submitted_lines_recorded_witness :
    ((replStep extEvalErr opt0 st0 (ReadEvent.ok "1 + 1")).1).history =
      st0.history ++ ["1 + 1"] :=
  submitted_lines_recorded.1 Unit Unit Unit extEvalErr opt0 st0 "1 + 1"
    (by decide)

/-! ## Claim C9: `.exit` is never recorded -/

/-- C9: the `.exit` line breaks the loop before the history-append step,
so it leaves history unchanged; a session of non-exit submissions ended by
`.exit` records exactly the lines submitted before it, in order. -/
theorem exit_line_never_recorded :
    (∀ (T A G : Type) (E : Externals T A G) (args : Opt) (st : ReplState G),
        ((replStep E args st (ReadEvent.ok ".exit")).1).history =
          st.history ∧
        (replStep E args st (ReadEvent.ok ".exit")).2.2 = StepOut.broke) ∧
    (∀ (T A G : Type) (E : Externals T A G) (args : Opt) (st : ReplState G)
        (lines : List String), (∀ l ∈ lines, ¬ l = ".exit") →
        ((runLoop E args st
            (lines.map ReadEvent.ok ++ [ReadEvent.ok ".exit"])).1).history =
          st.history ++ lines) := by
  constructor
  · intro T A G E args st
    rw [replStep_exit]
    exact ⟨rfl, rfl⟩
  · intro T A G E args st lines h
    exact runLoop_history E args st lines h

/-- C9 witness: a session submitting two lines and then `.exit` persists
exactly those two lines. -/
theorem exit_line_never_recorded_witness :
    ((runLoop extOk opt0 st0
        (["let x = 1;", "x + 1;"].map ReadEvent.ok ++
          [ReadEvent.ok ".exit"])).1).history =
      st0.history ++ ["let x = 1;", "x + 1;"] :=
  exit_line_never_recorded.2 Unit Unit Unit extOk opt0 st0
    ["let x = 1;", "x + 1;"] (by decide)

/-! ## Claim C4: evaluation output channels -/

/-- C4 counterexample: in file mode an evaluation error is printed to
stderr as the bare engine error string, without the `Uncaught` tag, so
the claim that both modes tag evaluation errors as uncaught fails at a
concrete input. -/
theorem file_eval_err_untagged_cex :
    (fileStep extEvalErr opt0 () "1 + true").2 =
      { stdout := [], stderr := ["TypeError: boom"] } ∧
    isTagged "TypeError: boom" = false ∧
    isTagged "Uncaught: TypeError: boom" = true := by
  refine ⟨rfl, by decide, by decide⟩

/-- C4 amended: in both modes a successful result is printed to stdout
without decoration, and an evaluation error is printed to stderr; but
only the interactive mode tags the error as uncaught — file mode prints
the bare error string. -/
theorem eval_output_channels :
    ∀ (T A G : Type) (E : Externals T A G) (args : Opt) (eng eng2 : G)
      (buffer v : String) (st : ReplState G) (line : String),
      args.hasDumpFlag = false →
      (E.forward_val eng buffer = (eng2, Except.ok v) →
        fileStep E args eng buffer =
          (eng2, { stdout := [v], stderr := [] })) ∧
      (E.forward_val eng buffer = (eng2, Except.error v) →
        fileStep E args eng buffer =
          (eng2, { stdout := [], stderr := [v] })) ∧
      (¬ line = ".exit" →
        E.forward_val st.engine (trimEnd line) = (eng2, Except.ok v) →
        replStep E args st (ReadEvent.ok line) =
          ({ history := st.history ++ [line], engine := eng2 },
           { stdout := [v], stderr := [] }, StepOut.continued)) ∧
      (¬ line = ".exit" →
        E.forward_val st.engine (trimEnd line) = (eng2, Except.error v) →
        replStep E args st (ReadEvent.ok line) =
          ({ history := st.history ++ [line], engine := eng2 },
           { stdout := [], stderr := ["Uncaught: " ++ v] },
           StepOut.continued)) := by
  intro T A G E args eng eng2 buffer v st line hd
  exact ⟨fun hfv => fileStep_eval_ok E args eng eng2 buffer v hd hfv,
    fun hfv => fileStep_eval_err E args eng eng2 buffer v hd hfv,
    fun h hfv => replStep_eval_ok E args st line v eng2 h hd hfv,
    fun h hfv => replStep_eval_err E args st line v eng2 h hd hfv⟩

/-- C4 amended witness: with an engine that evaluates to `1`, file mode
prints the result to stdout; with an engine that fails, interactive mode
prints the tagged error to stderr. -/
theorem eval_output_channels_witness :
    fileStep extOk opt0 () "1" = ((), { stdout := ["1"], stderr := [] }) ∧
    replStep extEvalErr opt0 st0 (ReadEvent.ok "nope") =
      ({ history := ["nope"], engine := () },
       { stdout := [], stderr := ["Uncaught: TypeError: boom"] },
       StepOut.continued) := by
  constructor
  · exact (eval_output_channels Unit Unit Unit extOk opt0 () () "1" "1" st0
      "x" rfl).1 rfl
  · exact (eval_output_channels Unit Unit Unit extEvalErr opt0 () () "x"
      "TypeError: boom" st0 "nope" rfl).2.2.2 (by decide) rfl

/-! ## Claim C5: dump pipeline staging -/

/-- C5: `dump` always tokenizes first (a lexer failure decides the result
whatever the flags); with a token dump requested the result is independent
of the parser and serializes the lexed token sequence; with a tree dump
requested the token sequence produced by that tokenization is parsed and
the tree serialized. -/
theorem dump_pipeline_stages :
    ∀ (T A G : Type) (E : Externals T A G) (args : Opt) (src : String),
      (∀ e, E.lex src = Except.error e →
        dump E src args = Except.error ("SyntaxError: " ++ e)) ∧
      (∀ (f : Option DumpFormat) (p : List T → Except String A),
        args.dump_tokens = some f →
        dump { E with parse := p } src args = dump E src args) ∧
      (∀ (f : Option DumpFormat) (ts : List T),
        args.dump_tokens = some f → E.lex src = Except.ok ts →
        dump E src args = Except.ok [tokenOutput E f ts]) ∧
      (∀ (f : Option DumpFormat) (ts : List T) (ast : A),
        args.dump_tokens = none → args.dump_ast = some f →
        E.lex src = Except.ok ts → E.parse ts = Except.ok ast →
        dump E src args = Except.ok [astOutput E f ast]) := by
  intro T A G E args src
  exact ⟨fun e h => dump_lex_err E args src e h,
    fun f p hf => dump_tokens_parse_indep E args src f p hf,
    fun f ts hf h => dump_tokens_out E args src f ts hf h,
    fun f ts ast ht hf h hp => dump_ast_out E args src f ts ast ht hf h hp⟩

/-- C5 witness: concrete token and tree dumps through the concrete
collaborators. -/
theorem dump_pipeline_stages_witness :
    dump extLexErr "x" optTok = Except.error "SyntaxError: bad token" ∧
    dump extOk "x" optTok = Except.ok ["tokens-debug"] ∧
    dump extOk "x" optAst = Except.ok ["ast-json"] := by
  refine ⟨?_, ?_, ?_⟩
  · exact (dump_pipeline_stages Unit Unit Unit extLexErr optTok "x").1
      "bad token" rfl
  · exact (dump_pipeline_stages Unit Unit Unit extOk optTok "x").2.2.1
      none [()] rfl rfl
  · exact (dump_pipeline_stages Unit Unit Unit extOk optAst "x").2.2.2
      (some DumpFormat.json) [()] () rfl rfl rfl rfl

/-! ## Claim C6: dump failure characterisation -/

/-- C6: provided the two dump flags are not both set (the CLI declares
them mutually exclusive), `dump` fails exactly when lexing fails (with a
`SyntaxError`-kind message) or a tree dump is requested and parsing fails
(with a `ParsingError`-kind message); and in the interactive loop such a
failure only prints the message to stderr for that line, produces no
stdout output, leaves the engine untouched, leaves history exactly as the
submission append left it, and continues the loop. -/
theorem dump_failure_iff :
    ∀ (T A G : Type) (E : Externals T A G) (args : Opt) (src : String),
      ¬(args.dump_tokens ≠ none ∧ args.dump_ast ≠ none) →
      ((∃ e, dump E src args = Except.error e) ↔
        (∃ e, E.lex src = Except.error e) ∨
        (args.dump_ast ≠ none ∧
          ∃ ts e, E.lex src = Except.ok ts ∧ E.parse ts = Except.error e)) ∧
      (∀ e, E.lex src = Except.error e →
        dump E src args = Except.error ("SyntaxError: " ++ e)) ∧
      (∀ (ts : List T) (e : String), args.dump_ast ≠ none →
        E.lex src = Except.ok ts → E.parse ts = Except.error e →
        dump E src args = Except.error ("ParsingError: " ++ e)) ∧
      (∀ (st : ReplState G) (line e : String), ¬ line = ".exit" →
        args.hasDumpFlag = true → dump E line args = Except.error e →
        replStep E args st (ReadEvent.ok line) =
          ({ history := st.history ++ [line], engine := st.engine },
           { stdout := [], stderr := [e] }, StepOut.continued)) := by
  intro T A G E args src hx
  have hparse_err : ∀ (ts : List T) (e : String), args.dump_ast ≠ none →
      E.lex src = Except.ok ts → E.parse ts = Except.error e →
      dump E src args = Except.error ("ParsingError: " ++ e) := by
    intro ts e hast hlex hp
    cases ht : args.dump_tokens with
    | some f => exact absurd ⟨by simp [ht], hast⟩ hx
    | none =>
      cases hf : args.dump_ast with
      | none => exact absurd hf hast
      | some f => exact dump_parse_err E args src f ts e ht hf hlex hp
  refine ⟨?_, fun e h => dump_lex_err E args src e h, hparse_err,
    fun st line e h hd herr => replStep_dump_err E args st line e h hd herr⟩
  cases hlex : E.lex src with
  | error e =>
    have hd := dump_lex_err E args src e hlex
    constructor
    · intro _; exact Or.inl ⟨e, rfl⟩
    · intro _; exact ⟨_, hd⟩
  | ok ts =>
    cases ht : args.dump_tokens with
    | some f =>
      have hano : args.dump_ast = none := by
        by_contra han
        exact hx ⟨by simp [ht], han⟩
      have hdo := dump_tokens_out E args src f ts ht hlex
      constructor
      · rintro ⟨e, he⟩
        rw [hdo] at he
        simp at he
      · rintro (⟨e, he⟩ | ⟨han, _⟩)
        · simp at he
        · exact absurd hano han
    | none =>
      cases hf : args.dump_ast with
      | none =>
        have hdo := dump_no_flag E args src ts ht hf hlex
        constructor
        · rintro ⟨e, he⟩
          rw [hdo] at he
          simp at he
        · rintro (⟨e, he⟩ | ⟨han, _⟩)
          · simp at he
          · exact absurd rfl han
      | some f =>
        cases hp : E.parse ts with
        | error e =>
          have hdo := hparse_err ts e (by simp [hf]) hlex hp
          constructor
          · intro _
            exact Or.inr ⟨by simp [hf], ts, e, rfl, hp⟩
          · intro _
            exact ⟨_, hdo⟩
        | ok ast =>
          have hdo := dump_ast_out E args src f ts ast ht hf hlex hp
          constructor
          · rintro ⟨e, he⟩
            rw [hdo] at he
            simp at he
          · rintro (⟨e, he⟩ | ⟨_, ts2, e, hl2, hp2⟩)
            · simp at he
            · injection hl2 with h2
              subst h2
              rw [hp] at hp2
              simp at hp2

/-- C6 witness: a parse failure during a requested tree dump yields the
`ParsingError` message, and in the interactive loop a lexer failure during
a token dump prints the `SyntaxError` message to stderr only. -/
theorem dump_failure_iff_witness :
    dump extParseErr "x" optAst = Except.error "ParsingError: bad ast" ∧
    replStep extLexErr optTok st0 (ReadEvent.ok "(") =
      ({ history := ["("], engine := () },
       { stdout := [], stderr := ["SyntaxError: bad token"] },
       StepOut.continued) := by
  constructor
  · exact (dump_failure_iff Unit Unit Unit extParseErr optAst "x"
      (by decide)).2.2.1 [()] "bad ast" (by decide) rfl rfl
  · exact (dump_failure_iff Unit Unit Unit extLexErr optTok "("
      (by decide)).2.2.2 st0 "(" "SyntaxError: bad token" (by decide) rfl rfl

/-! ## Validator lemmas -/

/-- A closing grouping symbol is not an opening one. -/
theorem close_not_open {c : Char} (h : isCloseBracket c = true) :
    isOpenBracket c = false := by
  simp only [isCloseBracket, Bool.or_eq_true, decide_eq_true_eq] at h
  rcases h with (h | h) | h <;> subst h <;> rfl

/-- The partner of an opening symbol is a closing, non-opening symbol. -/
theorem matching_close {o c : Char} (h : matchingPair o c = true) :
    isCloseBracket c = true ∧ isOpenBracket c = false := by
  simp only [matchingPair, Bool.or_eq_true, Bool.and_eq_true,
    decide_eq_true_eq] at h
  rcases h with (⟨_, h⟩ | ⟨_, h⟩) | ⟨_, h⟩ <;> subst h <;> exact ⟨rfl, rfl⟩

/-- Scanning a well-bracketed segment leaves the stack unchanged and never
fails: the scan continues on the remainder. -/
theorem validate_wb_segment {cs : List Char} (h : WellBracketed cs) :
    ∀ (rest stack : List Char),
      validateBrackets (cs ++ rest) stack = validateBrackets rest stack := by
  induction h with
  | nil => intro rest stack; rfl
  | @other c cs2 hno hnc _ ih =>
    intro rest stack
    simp only [List.cons_append, validateBrackets, hno, hnc]
    exact ih rest stack
  | @wrap o c inner rst hop hmp _ _ ihinner ihrst =>
    intro rest stack
    have hc := matching_close hmp
    have step1 :
        validateBrackets ((o :: (inner ++ c :: rst)) ++ rest) stack =
          validateBrackets ((inner ++ c :: rst) ++ rest) (o :: stack) := by
      simp only [List.cons_append, validateBrackets, hop, if_true,
        List.append_eq]
    rw [step1, List.append_assoc, ihinner (c :: rst ++ rest) (o :: stack)]
    simp only [List.cons_append, validateBrackets, hc.1, hc.2, hmp, if_true]
    exact ihrst rest stack

/-- Every well-bracketed buffer validates as `valid`. -/
theorem valid_of_wb {cs : List Char} (h : WellBracketed cs) :
    validateBrackets cs [] = ValidationVerdict.valid := by
  have := validate_wb_segment h [] []
  simpa using this

/-- If the scan of `cs` starting with `o` on top of the stack succeeds,
then `cs` splits as a well-bracketed segment, the closer of `o`, and a
remainder that validates against the popped stack. -/
theorem validate_pop :
    ∀ (n : Nat) (cs : List Char), cs.length ≤ n →
      ∀ (o : Char) (stack : List Char),
        validateBrackets cs (o :: stack) = ValidationVerdict.valid →
        ∃ inner c rest, cs = inner ++ c :: rest ∧ WellBracketed inner ∧
          matchingPair o c = true ∧
          validateBrackets rest stack = ValidationVerdict.valid := by
  intro n
  induction n with
  | zero =>
    intro cs hlen o stack hv
    have hnil : cs = [] := List.length_eq_zero.mp (Nat.le_zero.mp hlen)
    subst hnil
    simp [validateBrackets] at hv
  | succ n ih =>
    intro cs hlen o stack hv
    cases cs with
    | nil => simp [validateBrackets] at hv
    | cons x cs2 =>
      have h2 : cs2.length ≤ n := Nat.le_of_succ_le_succ (by simpa using hlen)
      by_cases hxo : isOpenBracket x = true
      · have hv2 : validateBrackets cs2 (x :: o :: stack) =
            ValidationVerdict.valid := by
          simpa [validateBrackets, hxo] using hv
        obtain ⟨i1, c1, r1, hcs2, hwb1, hm1, hv3⟩ := ih cs2 h2 x (o :: stack) hv2
        have hr1len : r1.length ≤ n := by
          have := congrArg List.length hcs2
          simp [List.length_append] at this
          omega
        obtain ⟨i2, c2, r2, hr1, hwb2, hm2, hv4⟩ := ih r1 hr1len o stack hv3
        refine ⟨x :: (i1 ++ c1 :: i2), c2, r2, ?_,
          WellBracketed.wrap hxo hm1 hwb1 hwb2, hm2, hv4⟩
        rw [hcs2, hr1]
        simp
      · by_cases hxc : isCloseBracket x = true
        · by_cases hm : matchingPair o x = true
          · have hv2 : validateBrackets cs2 stack = ValidationVerdict.valid := by
              simpa [validateBrackets, hxo, hxc, hm] using hv
            exact ⟨[], x, cs2, rfl, WellBracketed.nil, hm, hv2⟩
          · simp [validateBrackets, hxo, hxc, hm] at hv
        · have hv2 : validateBrackets cs2 (o :: stack) =
              ValidationVerdict.valid := by
            simpa [validateBrackets, hxo, hxc] using hv
          obtain ⟨i, c, r, hcs2, hwb, hm, hv3⟩ := ih cs2 h2 o stack hv2
          refine ⟨x :: i, c, r, by rw [hcs2]; rfl,
            WellBracketed.other (by simpa using hxo) (by simpa using hxc) hwb,
            hm, hv3⟩

/-- Every buffer that validates as `valid` is well-bracketed. -/
theorem wb_of_valid :
    ∀ (n : Nat) (cs : List Char), cs.length ≤ n →
      validateBrackets cs [] = ValidationVerdict.valid → WellBracketed cs := by
  intro n
  induction n with
  | zero =>
    intro cs hlen _
    have hnil : cs = [] := List.length_eq_zero.mp (Nat.le_zero.mp hlen)
    subst hnil
    exact WellBracketed.nil
  | succ n ih =>
    intro cs hlen hv
    cases cs with
    | nil => exact WellBracketed.nil
    | cons x cs2 =>
      have h2 : cs2.length ≤ n := Nat.le_of_succ_le_succ (by simpa using hlen)
      by_cases hxo : isOpenBracket x = true
      · have hv2 : validateBrackets cs2 [x] = ValidationVerdict.valid := by
          simpa [validateBrackets, hxo] using hv
        obtain ⟨inner, c, rest, hcs2, hwb, hm, hv3⟩ :=
          validate_pop n cs2 h2 x [] hv2
        have hrlen : rest.length ≤ n := by
          have := congrArg List.length hcs2
          simp [List.length_append] at this
          omega
        have hrest := ih rest hrlen hv3
        rw [hcs2]
        exact WellBracketed.wrap hxo hm hwb hrest
      · by_cases hxc : isCloseBracket x = true
        · simp [validateBrackets, hxo, hxc] at hv
        · have hv2 : validateBrackets cs2 [] = ValidationVerdict.valid := by
            simpa [validateBrackets, hxo, hxc] using hv
          exact WellBracketed.other (by simpa using hxo) (by simpa using hxc)
            (ih cs2 h2 hv2)

/-! ## Claim C7: the bracket validator -/

/-- C7 (spec-modelled: the `MatchingBracketValidator` implementation lives
in the rustyline dependency): the validator scans left to right with a
stack of open grouping symbols over the pairs of parentheses, brackets and
braces — a closing symbol not matching the stack top (or arriving on an
empty stack) yields `invalid` immediately, whatever follows; end of input
with a non-empty stack yields `incomplete`; and an empty-stack,
mismatch-free end of input yields `valid`, which happens exactly for the
well-bracketed buffers. -/
theorem bracket_validator_spec :
    (∀ (c o : Char) (rest stack : List Char),
      isCloseBracket c = true → matchingPair o c = false →
      validateBrackets (c :: rest) (o :: stack) = ValidationVerdict.invalid) ∧
    (∀ (c : Char) (rest : List Char), isCloseBracket c = true →
      validateBrackets (c :: rest) [] = ValidationVerdict.invalid) ∧
    (∀ (o : Char) (stack : List Char),
      validateBrackets [] (o :: stack) = ValidationVerdict.incomplete) ∧
    (∀ (cs : List Char),
      validateBrackets cs [] = ValidationVerdict.valid ↔ WellBracketed cs) := by
  refine ⟨?_, ?_, fun o stack => rfl, ?_⟩
  · intro c o rest stack hc hm
    simp [validateBrackets, close_not_open hc, hc, hm]
  · intro c rest hc
    simp [validateBrackets, close_not_open hc, hc]
  · intro cs
    exact ⟨fun hv => wb_of_valid cs.length cs (Nat.le_refl _) hv,
      fun hwb => valid_of_wb hwb⟩

/-- C7 witness: a mismatched closer is invalid at once, a closer on an
empty stack is invalid, a dangling opener is incomplete, and a balanced
buffer is well-bracketed. -/
theorem bracket_validator_spec_witness :
    validateBrackets [']'] ['('] = ValidationVerdict.invalid ∧
    validateBrackets [')'] [] = ValidationVerdict.invalid ∧
    validateBrackets [] ['('] = ValidationVerdict.incomplete ∧
    WellBracketed ['(', '1', ')'] :=
  ⟨bracket_validator_spec.1 ']' '(' [] [] (by decide) (by decide),
   bracket_validator_spec.2.1 ')' [] (by decide),
   bracket_validator_spec.2.2.1 '(' [],
   (bracket_validator_spec.2.2.2 ['(', '1', ')']).mp (by decide)⟩

/-! ## Highlighter lemmas -/

/-- With enough fuel, the span texts of the scan concatenate back to the
scanned buffer: no character is dropped, duplicated or altered. -/
theorem strip_highlightScanF :
    ∀ (n : Nat) (cs : List Char), cs.length ≤ n →
      stripSegs (highlightScanF n cs) = cs := by
  intro n
  induction n with
  | zero =>
    intro cs hlen
    have hnil : cs = [] := List.length_eq_zero.mp (Nat.le_zero.mp hlen)
    subst hnil
    rfl
  | succ n ih =>
    intro cs hlen
    cases cs with
    | nil => rfl
    | cons c cs2 =>
      have h2 : cs2.length ≤ n := Nat.le_of_succ_le_succ (by simpa using hlen)
      by_cases hid : identStartChar c = true
      · have hr2 : (List.dropWhile identContChar
            (List.dropWhile identStartChar cs2)).length ≤ n :=
          le_trans (le_trans
            (List.dropWhile_suffix identContChar).sublist.length_le
            (List.dropWhile_suffix identStartChar).sublist.length_le) h2
        simp only [highlightScanF, hid, if_true, stripSegs]
        rw [ih _ hr2]
        simp [List.append_assoc, List.takeWhile_append_dropWhile]
      · by_cases hop : opChar c = true
        · simp only [highlightScanF, hid, hop, if_true, if_false,
            Bool.false_eq_true, stripSegs]
          rw [ih cs2 h2]
          rfl
        · simp only [highlightScanF, hid, hop, if_false,
            Bool.false_eq_true, stripSegs]
          rw [ih cs2 h2]
          rfl

/-! ## Claim C8: highlighting is content-preserving -/

/-- C8: stripping all style markers from `highlight(line)` yields exactly
`line`, character for character, for every line. -/
theorem highlight_content_preserving :
    ∀ (line : String), stripString (highlightLine line) = line := by
  intro line
  unfold stripString highlightLine highlightScan
  rw [strip_highlightScanF line.data.length line.data (Nat.le_refl _)]

/-! ## Claim C10: the caret is matched as an identifier -/

/-- C10: the identifier class `[$A-z_]` is a code-point range, so it also
matches the ASCII characters between `Z` and `a` — among them the bracket,
backslash, caret and backquote — and the line consisting of the operator
character caret (which the operator class also lists) is captured by the
identifier alternative and rendered with the plain-identifier treatment,
not the operator treatment. -/
theorem caret_highlighted_as_identifier :
    ('Z' < '^' ∧ '^' < 'a') ∧
    identStartChar '[' = true ∧ identStartChar '\\' = true ∧
    identStartChar ']' = true ∧ identStartChar '^' = true ∧
    identStartChar '\x60' = true ∧
    opChar '^' = true ∧
    highlightLine "^" = [{ cat := Cat.plainIdent, text := ['^'] }] ∧
    Cat.plainIdent ≠ Cat.op :=
  ⟨by decide, rfl, rfl, rfl, rfl, rfl, rfl, rfl, by decide⟩
